import Mathlib

/-!
Verification of the BulletJournal sync engine (backend/app/api/sync.py).

The Python upsert functions work on record dictionaries after a field-mapping
pass and a datetime-conversion pass: timestamp-typed string fields are parsed
(naive values treated as UTC) or set to None on parse failure.  We embed
records at that level: timestamps are absolute instants modelled as `Int`,
a successfully parsed timestamp is `Value.vTime`, an absent value or a failed
parse is `Value.vNull`, and other field values are `Value.vStr`.
-/

namespace BulletJournal

/-- A field value in a record dictionary or a stored row, after the
datetime-conversion pass of the upsert functions. -/
inductive Value where
  | vStr : String → Value
  | vTime : Int → Value
  | vNull : Value
deriving DecidableEq, Repr

/-- Python truthiness of a field value (`if task_dict.get("userId") and ...`):
None is falsy, an empty string is falsy, datetimes and nonempty strings
are truthy. -/
def Value.truthy : Value → Bool
  | .vStr s => !(s == "")
  | .vTime _ => true
  | .vNull => false

def Value.toTime : Value → Option Int
  | .vTime t => some t
  | _ => none

/-- An incoming record dictionary after field mapping and datetime
conversion: `id` is `data["id"]` (required), `fields` holds the remaining
key/value pairs in dictionary order. -/
structure IncomingRecord where
  id : String
  fields : List (String × Value)
deriving DecidableEq, Repr

/-- `client_updated_at`: `data.get("updatedAt")`, parsed; `none` when the
key is absent or its value failed to parse. -/
def clientUpdatedAt (rec : IncomingRecord) : Option Int :=
  match rec.fields.lookup "updatedAt" with
  | some (.vTime t) => some t
  | _ => none

/-- A stored row of one entity kind: the special columns `id`, `userId`,
`updatedAt`, plus the remaining payload columns as `attrs`. -/
structure Row where
  id : String
  userId : Value
  updatedAt : Option Int
  attrs : List (String × Value)
deriving DecidableEq, Repr

/-- Row ownership test, `Model.userId == user_id`. -/
def Row.ownedBy (r : Row) (u : String) : Bool := r.userId == .vStr u

/-- `hasattr(existing, key)` over the modelled row attributes. -/
def Row.hasAttr (r : Row) (k : String) : Bool :=
  k == "id" || k == "userId" || k == "updatedAt" ||
    r.attrs.any (fun kv => kv.1 == k)

/-- `setattr(existing, key, value)` on the modelled row. -/
def Row.setAttr (r : Row) (k : String) (v : Value) : Row :=
  if k == "userId" then { r with userId := v }
  else if k == "updatedAt" then { r with updatedAt := v.toTime }
  else { r with attrs := r.attrs.map (fun kv => if kv.1 == k then (k, v) else kv) }

/-- The attribute-copy loop of the upserts:
`for key, value in data.items(): if hasattr(existing, key) and key != "id"
[and key != "userId"]: setattr(existing, key, value)`.
`exUser` is true for the five kinds whose loop also excludes `"userId"`
(tasks, expenses, journals, goals, calendar notes) and false for
reflections, whose loop checks only `key != "id"`. -/
def copyFields (exUser : Bool) (r : Row) (fs : List (String × Value)) : Row :=
  fs.foldl (fun row kv =>
    if row.hasAttr kv.1 && !(kv.1 == "id") && !(exUser && kv.1 == "userId")
    then row.setAttr kv.1 kv.2 else row) r

/-- One entity kind's table. -/
structure Store where
  rows : List Row
deriving DecidableEq, Repr

/-- `db.query(Model).filter(Model.id == id, Model.userId == user_id).first()` -/
def findOwned (s : Store) (id u : String) : Option Row :=
  s.rows.find? (fun r => r.id == id && r.ownedBy u)

/-- `db.query(Model).filter(Model.id == id).first()` — no ownership filter. -/
def findAny (s : Store) (id : String) : Option Row :=
  s.rows.find? (fun r => r.id == id)

/-- `db.add(new_row); db.commit()` -/
def Store.insert (s : Store) (r : Row) : Store := ⟨s.rows ++ [r]⟩

/-- In-place mutation (plus commit) of the row returned by the owned
lookup. -/
def Store.replaceOwned (s : Store) (id u : String) (r' : Row) : Store :=
  ⟨s.rows.map (fun r => if r.id == id && r.ownedBy u then r' else r)⟩

/-- `Model(**db_data)` in the create branch: `db_data["userId"] = user_id`
overrides any client-declared owner, and `new_row.updatedAt = now` overrides
any client timestamp before the commit. -/
def newRow (rec : IncomingRecord) (u : String) (now : Int) : Row :=
  { id := rec.id
  , userId := .vStr u
  , updatedAt := some now
  , attrs := rec.fields.filter
      (fun kv => !(kv.1 == "userId") && !(kv.1 == "updatedAt")) }

/-- The row produced by the apply branch of an update: the copy loop
followed by `existing.updatedAt = datetime.now(timezone.utc)`. -/
def appliedRow (exUser : Bool) (ex : Row) (rec : IncomingRecord) (now : Int) : Row :=
  { copyFields exUser ex rec.fields with updatedAt := some now }

/-- The HTTP 403 raised by the upsert functions. -/
inductive UpsertError where
  | ownershipViolation
deriving DecidableEq, Repr

/-- The shared body of the six `upsert_*` functions of sync.py.  The first
component is the post-state of the store (unchanged when the exception is
raised, since the raise happens before any mutation), the second the
function's `True`/`False` conflict-resolved result or the raised error.
`now` is `datetime.now(timezone.utc)` at this call. -/
def upsertKind (exUser : Bool) (s : Store) (rec : IncomingRecord)
    (u : String) (now : Int) : Store × Except UpsertError Bool :=
  match findOwned s rec.id u with
  | some existing =>
    match clientUpdatedAt rec, existing.updatedAt with
    | some ct, some st =>
      if st < ct then
        (s.replaceOwned rec.id u (appliedRow exUser existing rec now), .ok false)
      else
        (s, .ok true)
    | _, _ =>
      (s.replaceOwned rec.id u (appliedRow exUser existing rec now), .ok false)
  | none =>
    match findAny s rec.id with
    | some _ => (s, .error .ownershipViolation)
    | none => (s.insert (newRow rec u now), .ok false)

def upsert_task := upsertKind true

def upsert_expense := upsertKind true

def upsert_journal := upsertKind true

def upsert_goal := upsertKind true

def upsert_calendar_note := upsertKind true

def upsert_reflection := upsertKind false

/-- The `SyncData` request schema: one record list per entity kind. -/
structure SyncData where
  tasks : List IncomingRecord
  expenses : List IncomingRecord
  journals : List IncomingRecord
  goals : List IncomingRecord
  calendarNotes : List IncomingRecord
  reflections : List IncomingRecord
deriving DecidableEq, Repr

/-- `total_items`: the record count summed across all six kinds. -/
def SyncData.total (b : SyncData) : Nat :=
  b.tasks.length + b.expenses.length + b.journals.length +
    b.goals.length + b.calendarNotes.length + b.reflections.length

/-- The server-side database: one table per entity kind. -/
structure DB where
  tasks : Store
  expenses : Store
  journals : Store
  goals : Store
  calendarNotes : Store
  reflections : Store
deriving DecidableEq, Repr

/-- The errors the sync endpoint can surface (HTTP 400 / 403). -/
inductive SyncError where
  | capacityExceeded
  | ownershipViolation
deriving DecidableEq, Repr

/-- The `SyncResponse` schema. -/
structure SyncResponse where
  synced_tasks : Nat
  synced_expenses : Nat
  synced_journals : Nat
  synced_goals : Nat
  synced_calendar_notes : Nat
  synced_reflections : Nat
  conflicts_resolved : Nat
deriving DecidableEq, Repr

/-- The pre-scan test applied to each task:
`task_dict.get("userId") and task_dict["userId"] != current_user.id`. -/
def declaredOwnerMismatch (rec : IncomingRecord) (u : String) : Bool :=
  match rec.fields.lookup "userId" with
  | some v => v.truthy && !(v == .vStr u)
  | none => false

/-- Result of the per-kind processing loop: the table after the committed
writes, the kind's synced counter, its share of `conflicts_resolved`,
and the error that aborted the loop, if any. -/
structure KindResult where
  store : Store
  synced : Nat
  conflicts : Nat
  err : Option UpsertError
deriving Repr

/-- One kind's loop in `sync_data`: each record is upserted and committed
independently; the counters increment after each successful upsert; a raised
error ends the loop with all earlier commits kept. -/
def procKind (exUser : Bool) (u : String) (now : Int) :
    Store → List IncomingRecord → KindResult
  | s, [] => ⟨s, 0, 0, none⟩
  | s, r :: rs =>
    match upsertKind exUser s r u now with
    | (sE, .error e) => ⟨sE, 0, 0, some e⟩
    | (s', .ok c) =>
      let rest := procKind exUser u now s' rs
      ⟨rest.store, rest.synced + 1, rest.conflicts + (if c then 1 else 0), rest.err⟩

/-- The `POST /sync` handler.  Returns the database after all committed
writes together with the response or the surfaced error.  `db.rollback()`
in the handler's except clause only discards uncommitted changes, and each
upsert commits before returning, so committed rows survive a failure. -/
def sync_data (db : DB) (b : SyncData) (u : String) (now : Int) :
    DB × Except SyncError SyncResponse :=
  if b.total > 1000 then (db, .error .capacityExceeded)
  else if b.tasks.any (fun r => declaredOwnerMismatch r u) then
    (db, .error .ownershipViolation)
  else
    let kt := procKind true u now db.tasks b.tasks
    let db1 := { db with tasks := kt.store }
    match kt.err with
    | some _ => (db1, .error .ownershipViolation)
    | none =>
      let ke := procKind true u now db.expenses b.expenses
      let db2 := { db1 with expenses := ke.store }
      match ke.err with
      | some _ => (db2, .error .ownershipViolation)
      | none =>
        let kj := procKind true u now db.journals b.journals
        let db3 := { db2 with journals := kj.store }
        match kj.err with
        | some _ => (db3, .error .ownershipViolation)
        | none =>
          let kg := procKind true u now db.goals b.goals
          let db4 := { db3 with goals := kg.store }
          match kg.err with
          | some _ => (db4, .error .ownershipViolation)
          | none =>
            let kn := procKind true u now db.calendarNotes b.calendarNotes
            let db5 := { db4 with calendarNotes := kn.store }
            match kn.err with
            | some _ => (db5, .error .ownershipViolation)
            | none =>
              let kr := procKind false u now db.reflections b.reflections
              let db6 := { db5 with reflections := kr.store }
              match kr.err with
              | some _ => (db6, .error .ownershipViolation)
              | none =>
                (db6, .ok ⟨kt.synced, ke.synced, kj.synced, kg.synced,
                  kn.synced, kr.synced,
                  kt.conflicts + ke.conflicts + kj.conflicts +
                    kg.conflicts + kn.conflicts + kr.conflicts⟩)

/-- The state of one kind's storage schema, as signalled by the exception
message the download handler inspects. -/
inductive SchemaState where
  | ok
  | missingColumn
  | missingTable
deriving DecidableEq, Repr

/-- Schema state per entity kind. -/
structure SchemaStates where
  tasks : SchemaState
  expenses : SchemaState
  journals : SchemaState
  goals : SchemaState
  calendarNotes : SchemaState
  reflections : SchemaState
deriving DecidableEq, Repr

/-- One kind's guarded fetch in `download_data`.  Every kind's handler
catches the "no such column" signal; only the goal and calendar-note
handlers also catch "no such table" (`catchMissingTable`); anything else
is re-raised and fails the export. -/
def fetchKind (catchMissingTable : Bool) (s : Store) (sch : SchemaState)
    (u : String) : Except Unit (List Row) :=
  match sch with
  | .ok => .ok (s.rows.filter (fun r => r.ownedBy u))
  | .missingColumn => .ok []
  | .missingTable => if catchMissingTable then .ok [] else .error ()

/-- The full-state payload returned by the download endpoint. -/
structure FullState where
  tasks : List Row
  expenses : List Row
  journals : List Row
  goals : List Row
  calendarNotes : List Row
  reflections : List Row
deriving DecidableEq, Repr

/-- The `POST /sync/download` handler. -/
def download_data (db : DB) (sch : SchemaStates) (u : String) :
    Except Unit FullState := do
  let t ← fetchKind false db.tasks sch.tasks u
  let e ← fetchKind false db.expenses sch.expenses u
  let j ← fetchKind false db.journals sch.journals u
  let g ← fetchKind true db.goals sch.goals u
  let n ← fetchKind true db.calendarNotes sch.calendarNotes u
  let r ← fetchKind false db.reflections sch.reflections u
  pure ⟨t, e, j, g, n, r⟩

/-- Spec-level description of one kind's export result: owned rows when the
schema is healthy, the empty set when the kind degrades. -/
def kindResult (s : Store) (sch : SchemaState) (u : String) : List Row :=
  match sch with
  | .ok => s.rows.filter (fun r => r.ownedBy u)
  | _ => []

/-- Spec-level count of the `ConflictKept` outcomes in one kind's list,
replaying the upserts record by record (spec 4.4's running
`conflicts_resolved` contribution of that kind). -/
def conflictCount (exUser : Bool) (u : String) (now : Int) :
    Store → List IncomingRecord → Nat
  | _, [] => 0
  | s, r :: rs =>
    match upsertKind exUser s r u now with
    | (_, .error _) => 0
    | (s', .ok c) => (if c then 1 else 0) + conflictCount exUser u now s' rs

/-- Spec-level count of the `Created`/`Updated` (applied) outcomes in one
kind's list, following the spec's aggregation sentence. -/
def appliedCount (exUser : Bool) (u : String) (now : Int) :
    Store → List IncomingRecord → Nat
  | _, [] => 0
  | s, r :: rs =>
    match upsertKind exUser s r u now with
    | (_, .error _) => 0
    | (s', .ok c) => (if c then 0 else 1) + appliedCount exUser u now s' rs

/-! Concrete inputs used by witnesses and counterexamples. -/

def emptyDB : DB := ⟨⟨[]⟩, ⟨[]⟩, ⟨[]⟩, ⟨[]⟩, ⟨[]⟩, ⟨[]⟩⟩

/-- A stored task of caller alice with server timestamp 10. -/
def taskRowDraft : Row := ⟨"t1", .vStr "alice", some 10, [("title", .vStr "Draft")]⟩

/-- An incoming task for `"t1"` carrying an older client timestamp. -/
def taskRecOld : IncomingRecord :=
  ⟨"t1", [("updatedAt", .vTime 5), ("title", .vStr "Final")]⟩

/-- A stored reflection of caller alice with no stored timestamp. -/
def refRow0 : Row := ⟨"r1", .vStr "alice", none, [("content", .vStr "hi")]⟩

/-- An incoming reflection dictionary whose payload declares another owner. -/
def refRec0 : IncomingRecord := ⟨"r1", [("userId", .vStr "bob")]⟩

/-- An incoming task whose client timestamp lies in the future of both
server write times used below. -/
def futRec : IncomingRecord := ⟨"t1", [("updatedAt", .vTime 100), ("title", .vStr "x")]⟩

/-- An incoming expense declaring another user's owner id. -/
def expForeign : IncomingRecord := ⟨"e1", [("userId", .vStr "bob"), ("amount", .vStr "5")]⟩

/-- An incoming task declaring another user's owner id. -/
def taskForeign : IncomingRecord := ⟨"t9", [("userId", .vStr "bob")]⟩

/-- A row stored under user bob. -/
def bobRow : Row := ⟨"x1", .vStr "bob", some 3, []⟩

/-- A record with no payload beyond its id. -/
def blankRec : IncomingRecord := ⟨"t0", []⟩

def batch1001 : SyncData := ⟨List.replicate 1001 blankRec, [], [], [], [], []⟩

def batch1000 : SyncData := ⟨List.replicate 1000 blankRec, [], [], [], [], []⟩

/-- A one-new-task batch. -/
def batchOneTask : SyncData := ⟨[⟨"t2", []⟩], [], [], [], [], []⟩

/-- Database for the partial-commit witness: an expense `"e2"` already
stored under bob. -/
def db8 : DB := ⟨⟨[]⟩, ⟨[⟨"e2", .vStr "bob", some 1, []⟩]⟩, ⟨[]⟩, ⟨[]⟩, ⟨[]⟩, ⟨[]⟩⟩

def goodExp : IncomingRecord := ⟨"e1", []⟩

def badExp : IncomingRecord := ⟨"e2", []⟩

/-- Batch for the partial-commit witness: one new task, then a good expense
followed by an expense colliding with bob's record. -/
def batch8 : SyncData := ⟨[⟨"t3", []⟩], [goodExp, badExp], [], [], [], []⟩

/-- An expense row stored under alice, used by the export witness. -/
def aliceExp : Row := ⟨"e7", .vStr "alice", some 2, []⟩

def dbC9 : DB := ⟨⟨[]⟩, ⟨[aliceExp]⟩, ⟨[]⟩, ⟨[]⟩, ⟨[]⟩, ⟨[]⟩⟩

/-- Schema vector for the export witness: a degraded task column, missing
goal and calendar-note tables, a degraded reflection column. -/
def sch9 : SchemaStates :=
  ⟨.missingColumn, .ok, .ok, .missingTable, .missingTable, .missingColumn⟩

/-! Helper lemmas. -/

theorem findOwned_none_of_findAny_none (s : Store) (id u : String)
    (h : findAny s id = none) : findOwned s id u = none := by
  unfold findAny at h
  unfold findOwned
  rw [List.find?_eq_none] at h ⊢
  intro r hr hc
  rw [Bool.and_eq_true] at hc
  exact h r hr hc.1

theorem find?_append_of_none {α : Type} {p : α → Bool} {l₁ l₂ : List α}
    (h : l₁.find? p = none) : (l₁ ++ l₂).find? p = l₂.find? p := by
  induction l₁ with
  | nil => rfl
  | cons a l ih =>
    rw [List.find?_eq_none] at h
    have ha : p a = false := by
      have := h a (by simp)
      simpa using this
    have hl : l.find? p = none := by
      rw [List.find?_eq_none]
      intro x hx
      exact h x (by simp [hx])
    rw [List.cons_append, List.find?_cons, ha]
    exact ih hl

theorem findOwned_insert_fresh (s : Store) (rec : IncomingRecord)
    (u : String) (now : Int) (h : findAny s rec.id = none) :
    findOwned (s.insert (newRow rec u now)) rec.id u = some (newRow rec u now) := by
  have h0 : findOwned s rec.id u = none := findOwned_none_of_findAny_none s rec.id u h
  unfold findOwned at h0 ⊢
  unfold Store.insert
  rw [find?_append_of_none h0]
  simp [newRow, Row.ownedBy]

/-- The raise in the second-lookup branch happens before any mutation, so
an upsert that errors returns the store unchanged. -/
theorem upsertKind_err_store (exUser : Bool) (s : Store) (rec : IncomingRecord)
    (u : String) (now : Int) (e : UpsertError)
    (h : (upsertKind exUser s rec u now).2 = .error e) :
    upsertKind exUser s rec u now = (s, .error e) := by
  unfold upsertKind at h ⊢
  split at h
  · split at h
    · split at h <;> simp_all
    · simp_all
  · split at h <;> simp_all

theorem procKind_success (exUser : Bool) (u : String) (now : Int) :
    ∀ (recs : List IncomingRecord) (s : Store),
      (procKind exUser u now s recs).err = none →
      (procKind exUser u now s recs).synced = recs.length ∧
      (procKind exUser u now s recs).conflicts = conflictCount exUser u now s recs := by
  intro recs
  induction recs with
  | nil => intro s _; simp [procKind, conflictCount]
  | cons r rs ih =>
    intro s h
    simp only [procKind, conflictCount] at h ⊢
    cases hu : upsertKind exUser s r u now with
    | mk s' res =>
      rw [hu] at h
      cases res with
      | error e => simp at h
      | ok c =>
        dsimp only at h ⊢
        obtain ⟨h1, h2⟩ := ih s' h
        exact ⟨by rw [h1]; rfl, by rw [h2]; omega⟩

theorem procKind_fail_after (exUser : Bool) (u : String) (now : Int)
    (bad : IncomingRecord) (rest : List IncomingRecord) (e : UpsertError) :
    ∀ (good : List IncomingRecord) (s : Store),
      (procKind exUser u now s good).err = none →
      (upsertKind exUser (procKind exUser u now s good).store bad u now).2 = .error e →
      (procKind exUser u now s (good ++ bad :: rest)).store =
        (procKind exUser u now s good).store ∧
      (procKind exUser u now s (good ++ bad :: rest)).err = some e := by
  intro good
  induction good with
  | nil =>
    intro s _ hbad
    have hb := upsertKind_err_store exUser s bad u now e (by simpa [procKind] using hbad)
    simp only [List.nil_append]
    refine ⟨?_, ?_⟩ <;> simp [procKind, hb]
  | cons g gs ih =>
    intro s hg hbad
    simp only [procKind, List.cons_append] at hg hbad ⊢
    cases hu : upsertKind exUser s g u now with
    | mk s' res =>
      rw [hu] at hg hbad
      cases res with
      | error e' => simp at hg
      | ok c =>
        dsimp only at hg hbad ⊢
        exact ih s' hg hbad

/-! Claim theorems. -/

/-- C1: for an upsert of a record whose id already exists under the
caller's ownership, if the incoming updated_at parses and is strictly
greater than the stored updated_at the client data is applied; if it
parses and is less than or equal (equality included) the server copy is
kept unchanged and the outcome is the one `ConflictKept` flag counted by
the orchestrator; if the incoming updated_at is absent or failed to parse
the client data is applied unconditionally and no error is surfaced. -/
theorem C1_conflict_resolution (exUser : Bool) (s : Store) (rec : IncomingRecord)
    (u : String) (now : Int) (ex : Row)
    (hfound : findOwned s rec.id u = some ex) :
    (∀ ct st, clientUpdatedAt rec = some ct → ex.updatedAt = some st → st < ct →
      upsertKind exUser s rec u now =
        (s.replaceOwned rec.id u (appliedRow exUser ex rec now), .ok false)) ∧
    (∀ ct st, clientUpdatedAt rec = some ct → ex.updatedAt = some st → ct ≤ st →
      upsertKind exUser s rec u now = (s, .ok true)) ∧
    (clientUpdatedAt rec = none →
      upsertKind exUser s rec u now =
        (s.replaceOwned rec.id u (appliedRow exUser ex rec now), .ok false)) := by
  refine ⟨?_, ?_, ?_⟩
  · intro ct st hct hst hlt
    simp [upsertKind, hfound, hct, hst, hlt]
  · intro ct st hct hst hle
    simp [upsertKind, hfound, hct, hst, not_lt.mpr hle]
  · intro hct
    simp [upsertKind, hfound, hct]

/-- C1 witness: alice's stored task "t1" has timestamp 10; an incoming
record with client timestamp 5 is resolved by keeping the server copy. -/
theorem C1_conflict_resolution_witness :
    findOwned ⟨[taskRowDraft]⟩ taskRecOld.id "alice" = some taskRowDraft ∧
    upsertKind true ⟨[taskRowDraft]⟩ taskRecOld "alice" 20 = (⟨[taskRowDraft]⟩, .ok true) :=
  ⟨by decide,
    (C1_conflict_resolution true ⟨[taskRowDraft]⟩ taskRecOld "alice" 20 taskRowDraft
      (by decide)).2.1 5 10 (by decide) (by decide) (by decide)⟩

/-- C4: when no record with the given id exists under the caller's
ownership but one exists under a different owner, the upsert fails with
`OwnershipViolation` (HTTP 403) and the store — in particular the other
owner's row — is returned unchanged. -/
theorem C4_ownership_collision (exUser : Bool) (s : Store) (rec : IncomingRecord)
    (u : String) (now : Int) (r : Row)
    (hown : findOwned s rec.id u = none)
    (hany : findAny s rec.id = some r) :
    upsertKind exUser s rec u now = (s, .error .ownershipViolation) ∧
    r.ownedBy u = false := by
  constructor
  · simp [upsertKind, hown, hany]
  · unfold findAny at hany
    unfold findOwned at hown
    have hmem := List.mem_of_find?_eq_some hany
    have hid := List.find?_some hany
    have hno := (List.find?_eq_none.mp hown) r hmem
    rw [Bool.and_eq_true, not_and] at hno
    simpa using hno hid

/-- C4 witness: alice upserts id "x1", stored under bob; the call fails
with a 403 and bob's row is untouched. -/
theorem C4_ownership_collision_witness :
    findOwned ⟨[bobRow]⟩ (IncomingRecord.mk "x1" []).id "alice" = none ∧
    findAny ⟨[bobRow]⟩ (IncomingRecord.mk "x1" []).id = some bobRow ∧
    (upsertKind true ⟨[bobRow]⟩ ⟨"x1", []⟩ "alice" 5 =
      (⟨[bobRow]⟩, .error .ownershipViolation) ∧
     bobRow.ownedBy "alice" = false) :=
  ⟨by decide, by decide,
    C4_ownership_collision true ⟨[bobRow]⟩ ⟨"x1", []⟩ "alice" 5 bobRow
      (by decide) (by decide)⟩

/-- C10: if the stored record's updated_at is null, an upsert by the owner
applies the client data unconditionally — whatever the incoming
updated_at is, even present and older — and the stored updated_at becomes
the server write time `now`. -/
theorem C10_null_server_timestamp (exUser : Bool) (s : Store) (rec : IncomingRecord)
    (u : String) (now : Int) (ex : Row)
    (hfound : findOwned s rec.id u = some ex)
    (hnull : ex.updatedAt = none) :
    upsertKind exUser s rec u now =
      (s.replaceOwned rec.id u (appliedRow exUser ex rec now), .ok false) := by
  cases hct : clientUpdatedAt rec with
  | none => simp [upsertKind, hfound, hnull, hct]
  | some ct => simp [upsertKind, hfound, hnull, hct]

/-- C10 witness: alice's stored reflection "r1" has a null timestamp; an
incoming record with the old client timestamp 1 is applied anyway and the
stored timestamp becomes the write time 9. -/
theorem C10_null_server_timestamp_witness :
    findOwned ⟨[refRow0]⟩ (IncomingRecord.mk "r1" [("updatedAt", .vTime 1)]).id "alice" =
      some refRow0 ∧
    refRow0.updatedAt = none ∧
    upsertKind false ⟨[refRow0]⟩ ⟨"r1", [("updatedAt", .vTime 1)]⟩ "alice" 9 =
      ((Store.mk [refRow0]).replaceOwned "r1" "alice"
        (appliedRow false refRow0 ⟨"r1", [("updatedAt", .vTime 1)]⟩ 9), .ok false) :=
  ⟨by decide, by decide,
    C10_null_server_timestamp false ⟨[refRow0]⟩ ⟨"r1", [("updatedAt", .vTime 1)]⟩
      "alice" 9 refRow0 (by decide) (by decide)⟩

/-- C2 counterexample: a batch whose only record is an expense declaring
owner "bob", submitted by caller "alice" over an empty database, does not
fail: the sync succeeds and the expense is written — under alice.  The
declared-owner pre-check therefore does not cover every entity kind. -/
theorem C2_counterexample :
    sync_data emptyDB ⟨[], [expForeign], [], [], [], []⟩ "alice" 7 =
      (⟨⟨[]⟩, ⟨[⟨"e1", .vStr "alice", some 7, [("amount", .vStr "5")]⟩]⟩,
        ⟨[]⟩, ⟨[]⟩, ⟨[]⟩, ⟨[]⟩⟩,
       .ok ⟨0, 1, 0, 0, 0, 0, 0⟩) := by
  rfl

/-- C2 amended: the whole-batch declared-owner pre-check covers task
records only.  A batch within capacity containing a task whose payload
declares an owner other than the caller fails with `OwnershipViolation`
(HTTP 403) before any record of the batch is written; records of the
other five kinds with a mismatching declared owner are not pre-scanned. -/
theorem C2_amended_task_only_prescan (db : DB) (b : SyncData) (u : String) (now : Int)
    (hcap : ¬ b.total > 1000)
    (hmis : b.tasks.any (fun r => declaredOwnerMismatch r u) = true) :
    sync_data db b u now = (db, .error .ownershipViolation) := by
  unfold sync_data
  rw [if_neg hcap, if_pos hmis]

/-- C2 witness: a batch with one task declaring owner "bob", submitted by
alice, fails with a 403 and leaves the database unchanged. -/
theorem C2_amended_task_only_prescan_witness :
    ¬ (SyncData.mk [taskForeign] [] [] [] [] []).total > 1000 ∧
    (SyncData.mk [taskForeign] [] [] [] [] []).tasks.any
      (fun r => declaredOwnerMismatch r "alice") = true ∧
    sync_data emptyDB ⟨[taskForeign], [], [], [], [], []⟩ "alice" 7 =
      (emptyDB, .error .ownershipViolation) :=
  ⟨by decide, by decide,
    C2_amended_task_only_prescan emptyDB ⟨[taskForeign], [], [], [], [], []⟩
      "alice" 7 (by decide) (by decide)⟩

/-- C3: the spec's invariant that owner_id never changes after creation is
broken by `upsert_reflection`: its copy loop excludes only `"id"`, unlike
the other five kinds which also exclude `"userId"`.  Updating alice's
stored reflection "r1" with a dictionary declaring `userId = "bob"`
rewrites the stored owner to bob. -/
theorem C3_reflection_owner_overwritten :
    upsert_reflection ⟨[refRow0]⟩ refRec0 "alice" 9 =
      (⟨[⟨"r1", .vStr "bob", some 9, [("content", .vStr "hi")]⟩]⟩, .ok false) ∧
    upsert_task ⟨[refRow0]⟩ refRec0 "alice" 9 =
      (⟨[⟨"r1", .vStr "alice", some 9, [("content", .vStr "hi")]⟩]⟩, .ok false) := by
  constructor <;> rfl

/-- C5: a sync batch whose total record count across all six kinds exceeds
1000 fails with `CapacityExceeded` (HTTP 400) and the database is returned
unchanged — zero writes; a batch of at most 1000 records (in particular
exactly 1000) never fails the capacity check. -/
theorem C5_capacity_boundary (db : DB) (b : SyncData) (u : String) (now : Int) :
    (b.total > 1000 → sync_data db b u now = (db, .error .capacityExceeded)) ∧
    (¬ b.total > 1000 → (sync_data db b u now).2 ≠ .error .capacityExceeded) := by
  constructor
  · intro h
    unfold sync_data
    rw [if_pos h]
  · intro h
    unfold sync_data
    rw [if_neg h]
    split
    · simp
    · dsimp only
      repeat' split
      all_goals simp

/-- C5 witness: 1001 blank tasks are rejected with the database unchanged,
while a batch of exactly 1000 records does not trip the capacity check. -/
theorem C5_capacity_boundary_witness :
    batch1001.total > 1000 ∧
    sync_data emptyDB batch1001 "alice" 0 = (emptyDB, .error .capacityExceeded) ∧
    ¬ batch1000.total > 1000 ∧
    (sync_data emptyDB batch1000 "alice" 0).2 ≠ .error .capacityExceeded := by
  have h1 : batch1001.total > 1000 := by
    simp only [batch1001, SyncData.total, List.length_replicate, List.length_nil]
    omega
  have h2 : ¬ batch1000.total > 1000 := by
    simp only [batch1000, SyncData.total, List.length_replicate, List.length_nil]
    omega
  exact ⟨h1, (C5_capacity_boundary emptyDB batch1001 "alice" 0).1 h1,
    h2, (C5_capacity_boundary emptyDB batch1000 "alice" 0).2 h2⟩

/-- C6 counterexample: a record whose client timestamp (100) lies in the
future of the server write times (10, then 11) is `Created` on the first
call and applied again (`Updated`, `.ok false`) on the second call instead
of producing `ConflictKept` — the stored row also changes its updated_at
between the calls.  Idempotence as claimed fails for such records. -/
theorem C6_counterexample :
    upsert_task ⟨[]⟩ futRec "alice" 10 =
      (⟨[⟨"t1", .vStr "alice", some 10, [("title", .vStr "x")]⟩]⟩, .ok false) ∧
    upsert_task ⟨[⟨"t1", .vStr "alice", some 10, [("title", .vStr "x")]⟩]⟩
        futRec "alice" 11 =
      (⟨[⟨"t1", .vStr "alice", some 11, [("title", .vStr "x")]⟩]⟩, .ok false) := by
  constructor <;> rfl

/-- C6 amended: idempotence holds when the incoming updated_at is present,
parses, and does not exceed the server write time of the first call: the
first submission of a fresh record yields `Created`, the second yields
`ConflictKept`, and the stored data is unchanged between the calls.  With
an absent, unparseable, or future client timestamp the second call applies
the data again instead of keeping the server copy. -/
theorem C6_amended_idempotence (exUser : Bool) (s : Store) (rec : IncomingRecord)
    (u : String) (now1 now2 ct : Int)
    (hfresh : findAny s rec.id = none)
    (hct : clientUpdatedAt rec = some ct)
    (hle : ct ≤ now1) :
    upsertKind exUser s rec u now1 = (s.insert (newRow rec u now1), .ok false) ∧
    upsertKind exUser (s.insert (newRow rec u now1)) rec u now2 =
      (s.insert (newRow rec u now1), .ok true) := by
  constructor
  · simp [upsertKind, findOwned_none_of_findAny_none s rec.id u hfresh, hfresh]
  · have hfo := findOwned_insert_fresh s rec u now1 hfresh
    have hup : (newRow rec u now1).updatedAt = some now1 := rfl
    simp [upsertKind, hfo, hct, hup, not_lt.mpr hle]

/-- C6 witness: a fresh record with client timestamp 5 submitted at server
times 20 then 21 is created first and conflict-kept second, with the
stored state identical between the calls. -/
theorem C6_amended_idempotence_witness :
    findAny ⟨[]⟩ taskRecOld.id = none ∧
    clientUpdatedAt taskRecOld = some 5 ∧
    (5 : Int) ≤ 20 ∧
    (upsertKind true ⟨[]⟩ taskRecOld "alice" 20 =
      ((Store.mk []).insert (newRow taskRecOld "alice" 20), .ok false) ∧
     upsertKind true ((Store.mk []).insert (newRow taskRecOld "alice" 20))
        taskRecOld "alice" 21 =
      ((Store.mk []).insert (newRow taskRecOld "alice" 20), .ok true)) :=
  ⟨by decide, by decide, by decide,
    C6_amended_idempotence true ⟨[]⟩ taskRecOld "alice" 20 21 5
      (by decide) (by decide) (by decide)⟩

/-- C7 counterexample: a batch whose only task resolves to `ConflictKept`
reports `synced_tasks = 1` even though the number of `Created`/`Updated`
outcomes among the tasks is 0 — the per-kind count includes `ConflictKept`
records, contradicting the claim. -/
theorem C7_counterexample :
    (sync_data ⟨⟨[taskRowDraft]⟩, ⟨[]⟩, ⟨[]⟩, ⟨[]⟩, ⟨[]⟩, ⟨[]⟩⟩
        ⟨[taskRecOld], [], [], [], [], []⟩ "alice" 20).2 =
      .ok ⟨1, 0, 0, 0, 0, 0, 1⟩ ∧
    appliedCount true "alice" 20 ⟨[taskRowDraft]⟩ [taskRecOld] = 0 := by
  constructor <;> rfl

/-- C7 amended: for every successful sync batch, each per-kind count in the
response equals the total number of records of that kind processed —
`Created`, `Updated` and `ConflictKept` alike — and `conflicts_resolved`
equals the total number of `ConflictKept` outcomes summed across all
kinds. -/
theorem C7_amended_aggregation (db : DB) (b : SyncData) (u : String) (now : Int)
    (resp : SyncResponse) (h : (sync_data db b u now).2 = .ok resp) :
    resp.synced_tasks = b.tasks.length ∧
    resp.synced_expenses = b.expenses.length ∧
    resp.synced_journals = b.journals.length ∧
    resp.synced_goals = b.goals.length ∧
    resp.synced_calendar_notes = b.calendarNotes.length ∧
    resp.synced_reflections = b.reflections.length ∧
    resp.conflicts_resolved =
      conflictCount true u now db.tasks b.tasks +
      conflictCount true u now db.expenses b.expenses +
      conflictCount true u now db.journals b.journals +
      conflictCount true u now db.goals b.goals +
      conflictCount true u now db.calendarNotes b.calendarNotes +
      conflictCount false u now db.reflections b.reflections := by
  unfold sync_data at h
  by_cases hcap : b.total > 1000
  · rw [if_pos hcap] at h
    simp at h
  · rw [if_neg hcap] at h
    by_cases hscan : (b.tasks.any fun r => declaredOwnerMismatch r u) = true
    · rw [if_pos hscan] at h
      simp at h
    · rw [if_neg hscan] at h
      dsimp only at h
      cases h1 : (procKind true u now db.tasks b.tasks).err with
      | some e => rw [h1] at h; simp at h
      | none =>
      rw [h1] at h
      dsimp only at h
      cases h2 : (procKind true u now db.expenses b.expenses).err with
      | some e => rw [h2] at h; simp at h
      | none =>
      rw [h2] at h
      dsimp only at h
      cases h3 : (procKind true u now db.journals b.journals).err with
      | some e => rw [h3] at h; simp at h
      | none =>
      rw [h3] at h
      dsimp only at h
      cases h4 : (procKind true u now db.goals b.goals).err with
      | some e => rw [h4] at h; simp at h
      | none =>
      rw [h4] at h
      dsimp only at h
      cases h5 : (procKind true u now db.calendarNotes b.calendarNotes).err with
      | some e => rw [h5] at h; simp at h
      | none =>
      rw [h5] at h
      dsimp only at h
      cases h6 : (procKind false u now db.reflections b.reflections).err with
      | some e => rw [h6] at h; simp at h
      | none =>
      rw [h6] at h
      dsimp only at h
      rw [Except.ok.injEq] at h
      subst h
      obtain ⟨ht1, ht2⟩ := procKind_success true u now b.tasks db.tasks h1
      obtain ⟨he1, he2⟩ := procKind_success true u now b.expenses db.expenses h2
      obtain ⟨hj1, hj2⟩ := procKind_success true u now b.journals db.journals h3
      obtain ⟨hg1, hg2⟩ := procKind_success true u now b.goals db.goals h4
      obtain ⟨hn1, hn2⟩ := procKind_success true u now b.calendarNotes db.calendarNotes h5
      obtain ⟨hr1, hr2⟩ := procKind_success false u now b.reflections db.reflections h6
      refine ⟨ht1, he1, hj1, hg1, hn1, hr1, ?_⟩
      dsimp only
      rw [ht2, he2, hj2, hg2, hn2, hr2]

/-- C7 witness: a successful batch creating one task reports per-kind
counts equal to the submitted list lengths and zero resolved conflicts. -/
theorem C7_amended_aggregation_witness :
    (sync_data emptyDB batchOneTask "alice" 3).2 = .ok ⟨1, 0, 0, 0, 0, 0, 0⟩ ∧
    ((SyncResponse.mk 1 0 0 0 0 0 0).synced_tasks = batchOneTask.tasks.length ∧
     (SyncResponse.mk 1 0 0 0 0 0 0).synced_expenses = batchOneTask.expenses.length ∧
     (SyncResponse.mk 1 0 0 0 0 0 0).synced_journals = batchOneTask.journals.length ∧
     (SyncResponse.mk 1 0 0 0 0 0 0).synced_goals = batchOneTask.goals.length ∧
     (SyncResponse.mk 1 0 0 0 0 0 0).synced_calendar_notes = batchOneTask.calendarNotes.length ∧
     (SyncResponse.mk 1 0 0 0 0 0 0).synced_reflections = batchOneTask.reflections.length ∧
     (SyncResponse.mk 1 0 0 0 0 0 0).conflicts_resolved =
       conflictCount true "alice" 3 emptyDB.tasks batchOneTask.tasks +
       conflictCount true "alice" 3 emptyDB.expenses batchOneTask.expenses +
       conflictCount true "alice" 3 emptyDB.journals batchOneTask.journals +
       conflictCount true "alice" 3 emptyDB.goals batchOneTask.goals +
       conflictCount true "alice" 3 emptyDB.calendarNotes batchOneTask.calendarNotes +
       conflictCount false "alice" 3 emptyDB.reflections batchOneTask.reflections) :=
  ⟨by rfl, C7_amended_aggregation emptyDB batchOneTask "alice" 3 ⟨1, 0, 0, 0, 0, 0, 0⟩ rfl⟩

/-- C8: when a batch fails partway through — here an ownership violation on
an expense after a prefix of expenses and the whole task list were already
committed — the returned database keeps every earlier per-record commit:
the task writes and the good expense prefix survive, nothing is rolled
back, and the remaining records are not processed. -/
theorem C8_partial_commit (db : DB) (b : SyncData) (u : String) (now : Int)
    (good : List IncomingRecord) (bad : IncomingRecord) (rest : List IncomingRecord)
    (hcap : ¬ b.total > 1000)
    (hscan : (b.tasks.any fun r => declaredOwnerMismatch r u) = false)
    (htask : (procKind true u now db.tasks b.tasks).err = none)
    (hexp : b.expenses = good ++ bad :: rest)
    (hgood : (procKind true u now db.expenses good).err = none)
    (hbad : (upsertKind true (procKind true u now db.expenses good).store bad u now).2 =
      .error .ownershipViolation) :
    sync_data db b u now =
      ({ db with tasks := (procKind true u now db.tasks b.tasks).store,
                 expenses := (procKind true u now db.expenses good).store },
       .error .ownershipViolation) := by
  obtain ⟨hst, herr⟩ := procKind_fail_after true u now bad rest .ownershipViolation good
    db.expenses hgood hbad
  unfold sync_data
  rw [if_neg hcap, if_neg (by rw [hscan]; simp)]
  dsimp only
  rw [htask]
  dsimp only
  rw [hexp, herr]
  dsimp only
  rw [hst]

/-- C8 witness: with bob's expense "e2" stored, alice syncs one new task
and two expenses where the second collides with bob's id; the result keeps
the committed task and the committed first expense and reports the 403. -/
theorem C8_partial_commit_witness :
    ¬ batch8.total > 1000 ∧
    (batch8.tasks.any fun r => declaredOwnerMismatch r "alice") = false ∧
    (procKind true "alice" 5 db8.tasks batch8.tasks).err = none ∧
    batch8.expenses = [goodExp] ++ badExp :: [] ∧
    (procKind true "alice" 5 db8.expenses [goodExp]).err = none ∧
    (upsertKind true (procKind true "alice" 5 db8.expenses [goodExp]).store badExp
      "alice" 5).2 = .error .ownershipViolation ∧
    sync_data db8 batch8 "alice" 5 =
      ({ db8 with tasks := (procKind true "alice" 5 db8.tasks batch8.tasks).store,
                  expenses := (procKind true "alice" 5 db8.expenses [goodExp]).store },
       .error .ownershipViolation) :=
  ⟨by decide, by decide, by decide, by decide, by decide, by rfl,
    C8_partial_commit db8 batch8 "alice" 5 [goodExp] badExp []
      (by decide) (by decide) (by decide) (by decide) (by decide) (by rfl)⟩

/-- C9 counterexample: a missing-table signal on the task kind makes the
whole export fail, even though another kind (alice's expense) has data —
the claim that a missing-table signal merely degrades that kind to an
empty set is false for tasks, expenses, journals and reflections. -/
theorem C9_counterexample :
    download_data dbC9 ⟨.missingTable, .ok, .ok, .ok, .ok, .ok⟩ "alice" = .error () := by
  rfl

theorem fetchKind_strict (s : Store) (sch : SchemaState) (u : String)
    (h : sch ≠ .missingTable) :
    fetchKind false s sch u = .ok (kindResult s sch u) := by
  cases sch with
  | ok => rfl
  | missingColumn => rfl
  | missingTable => exact absurd rfl h

theorem fetchKind_lenient (s : Store) (sch : SchemaState) (u : String) :
    fetchKind true s sch u = .ok (kindResult s sch u) := by
  cases sch <;> rfl

/-- C9 amended: each of the six kinds is fetched independently and returns
only the caller's rows; a missing-column signal degrades any kind to an
empty set without failing the export, but a missing-table signal is
tolerated only for goals and calendar notes — on the other four kinds it
fails the whole export. -/
theorem C9_amended_export_degradation (db : DB) (sch : SchemaStates) (u : String)
    (ht : sch.tasks ≠ .missingTable) (he : sch.expenses ≠ .missingTable)
    (hj : sch.journals ≠ .missingTable) (hr : sch.reflections ≠ .missingTable) :
    download_data db sch u =
      .ok ⟨kindResult db.tasks sch.tasks u, kindResult db.expenses sch.expenses u,
           kindResult db.journals sch.journals u, kindResult db.goals sch.goals u,
           kindResult db.calendarNotes sch.calendarNotes u,
           kindResult db.reflections sch.reflections u⟩ := by
  unfold download_data
  rw [fetchKind_strict db.tasks sch.tasks u ht,
      fetchKind_strict db.expenses sch.expenses u he,
      fetchKind_strict db.journals sch.journals u hj,
      fetchKind_lenient db.goals sch.goals u,
      fetchKind_lenient db.calendarNotes sch.calendarNotes u,
      fetchKind_strict db.reflections sch.reflections u hr]
  rfl

/-- C9 witness: with a degraded task column, missing goal and
calendar-note tables and a degraded reflection column, the export still
succeeds, returning alice's expense and empty sets for the degraded
kinds. -/
theorem C9_amended_export_degradation_witness :
    sch9.tasks ≠ .missingTable ∧ sch9.expenses ≠ .missingTable ∧
    sch9.journals ≠ .missingTable ∧ sch9.reflections ≠ .missingTable ∧
    download_data dbC9 sch9 "alice" =
      .ok ⟨kindResult dbC9.tasks sch9.tasks "alice",
           kindResult dbC9.expenses sch9.expenses "alice",
           kindResult dbC9.journals sch9.journals "alice",
           kindResult dbC9.goals sch9.goals "alice",
           kindResult dbC9.calendarNotes sch9.calendarNotes "alice",
           kindResult dbC9.reflections sch9.reflections "alice"⟩ :=
  ⟨by decide, by decide, by decide, by decide,
    C9_amended_export_degradation dbC9 sch9 "alice"
      (by decide) (by decide) (by decide) (by decide)⟩

end BulletJournal
